import Mathlib

/-
Verification development for the StudAIGroupManager login/session subsystem.

The Python sources embedded here are:
  * src/login.py  — class AzureADLogin: the multi-step Azure AD login
    sequencer (`login`), the page-inspector helpers
    (`extract_config_from_script`, `extract_form_data`, `extract_saml_form`,
    `build_form_data_from_config`, `make_absolute_url`), the second-factor
    poller (`wait_for_auth_approval`) and the cookie store
    (`save_session`, `load_session`).
  * src/run.py    — StudyGroupManager.save_session
  * src/book_room.py — save_session

Modelling conventions (shallow embedding):
  * An HTTP response is a `Response`: status code, final URL, body text,
    plus the parsed view of the body that BeautifulSoup would produce —
    the list of script-tag contents (`scripts`, only scripts whose
    `.string` is non-None) and the list of forms (`forms`).  Substring
    tests on the body (`'x' in response.text`) are modelled by `substr`
    on the `text` field.
  * `json.loads` is an external library call; it is modelled by an
    arbitrary parser parameter `jp : String → Option Config`.  The regex
    search `\$Config\s*=\s*({.*?});` of `extract_config_from_script` is
    modelled exactly (leftmost match, lazy group, DOTALL).
  * The embedded `$Config` JSON object is modelled as `Config`, an
    association list from keys to `JVal`; a `JVal` is a string scalar or
    a flat string-to-string object (the shape of `oPostParams`).  Deeper
    JSON nesting is never read by the code and is not modelled.
  * The network is an oracle: a list of `Option Response`, consumed one
    entry per issued HTTP call; `none` models a transport exception from
    `requests` (an exhausted oracle also behaves as an exception).  Each
    attempted call is recorded in a request trace.
  * `login`'s body runs inside `try/except` returning `None`; both an
    explicit `return None` and a raised exception therefore yield `None`
    from `login`, and the model collapses the two where they are
    observationally identical (no further requests are issued either
    way).  Inside `wait_for_auth_approval` a polling exception is caught
    and breaks the loop; that distinction is modelled faithfully.
  * Console printing and the debug HTML dumps are side effects with no
    influence on control flow and are not modelled.
-/

namespace StudAI

/-- Contiguous-sublist test on character lists. -/
def infixOf (n : List Char) : List Char → Bool
  | [] => n.isEmpty
  | c :: rest => n.isPrefixOf (c :: rest) || infixOf n rest

/-- Python's `needle in hay` substring test on strings. -/
def substr (needle hay : String) : Bool :=
  infixOf needle.toList hay.toList

/-- Python's `str.lower()` (ASCII; every string the code lowers is ASCII). -/
def strLower (s : String) : String :=
  String.mk (s.toList.map Char.toLower)

/-- Python `\s` character class (ASCII whitespace as used by `re`). -/
def isPySpace (c : Char) : Bool :=
  c == ' ' || c == '\t' || c == '\n' || c == '\r' || c == '\x0b' || c == '\x0c'

/-- Drop leading regex whitespace (`\s*`). -/
def dropWS : List Char → List Char
  | [] => []
  | c :: rest => if isPySpace c then dropWS rest else c :: rest

/-- The lazy group body of `({.*?});`: consume characters after the opening
brace up to (excluding) the first `};`, DOTALL.  `none` if no `};` follows. -/
def lazyBody : List Char → Option (List Char)
  | '}' :: ';' :: _ => some []
  | c :: rest => (lazyBody rest).map (fun b => c :: b)
  | [] => none

/-- Attempt the regex `\$Config\s*=\s*({.*?});` anchored at the start of `l`;
returns the captured group (braces included) on success. -/
def matchConfigAt (l : List Char) : Option (List Char) :=
  if ("$Config".toList).isPrefixOf l then
    match dropWS (l.drop 7) with
    | '=' :: l2 =>
      match dropWS l2 with
      | '{' :: l3 => (lazyBody l3).map (fun b => '{' :: (b ++ ['}']))
      | _ => none
    | _ => none
  else none

/-- `re.search`: try the pattern at each position, leftmost match wins. -/
def searchConfigL : List Char → Option (List Char)
  | [] => none
  | c :: rest =>
    match matchConfigAt (c :: rest) with
    | some g => some g
    | none => searchConfigL rest

/-- The JSON text captured by the `$Config` regex on one script, if any. -/
def configCandidate (s : String) : Option String :=
  (searchConfigL s.toList).map String.mk

/-- A JSON value as read by the login code: a string scalar, or a flat
string-to-string object (the shape of `oPostParams`). -/
inductive JVal where
  | s : String → JVal
  | obj : List (String × String) → JVal
deriving DecidableEq, Repr

/-- The parsed `$Config` object: an association list (Python dict). -/
abbrev Config := List (String × JVal)

/-- Form fields to be POSTed (`form_data` dicts). -/
abbrev FormData := List (String × JVal)

/-- Python dict assignment `d[k] = v`: replace an existing binding in place
or append a new one. -/
def setA {α : Type} (d : List (String × α)) (k : String) (v : α) :
    List (String × α) :=
  if d.any (fun p => p.1 == k) then
    d.map (fun p => if p.1 == k then (k, v) else p)
  else d ++ [(k, v)]

/-- Python dict lookup `d.get(k)`. -/
def getA {α : Type} (d : List (String × α)) (k : String) : Option α :=
  (d.find? (fun p => p.1 == k)).map (fun p => p.2)

/-- Python truthiness of a JSON value (`''` and `{}` are falsy). -/
def jvalTruthy : JVal → Bool
  | .s v => v ≠ ""
  | .obj l => !l.isEmpty

/-- Python `a or b` where `a` is an optional JSON value (`None` is falsy):
returns `b` as-is whenever `a` is falsy. -/
def pyOrJ (a b : Option JVal) : Option JVal :=
  match a with
  | some v => if jvalTruthy v then some v else b
  | none => b

/-- `AzureADLogin.extract_config_from_script`, one loop iteration: a script
whose text contains the literal marker `$Config=` is regex-searched and its
captured JSON parsed; a successful parse replaces the accumulator, any
failure (`no match`, malformed JSON) leaves it unchanged. -/
def configStep (jp : String → Option Config) (acc : Config) (s : String) :
    Config :=
  if substr "$Config=" s then
    match (configCandidate s).bind jp with
    | some cfg => cfg
    | none => acc
  else acc

/-- `AzureADLogin.extract_config_from_script`: fold over every script of the
page, starting from the empty dict.  Never raises: `json.loads` errors are
swallowed by the `try/except` inside the loop. -/
def extract_config_from_script (jp : String → Option Config)
    (scripts : List String) : Config :=
  scripts.foldl (configStep jp) []

/-- One `<form>` element as parsed by BeautifulSoup: optional id, optional
action attribute, and its input elements as (optional name, value) pairs
(a missing `value` attribute already defaulted to `""`). -/
structure Form where
  id : Option String
  action : Option String
  inputs : List (Option String × String)
deriving DecidableEq, Repr

/-- One HTTP response (a page snapshot): status, final URL, body text, and
the parsed views of the body used by the code. -/
structure Response where
  status_code : Nat
  url : String
  text : String
  scripts : List String
  forms : List Form
deriving DecidableEq, Repr

/-- The `name -> value` pairs of a form's inputs (inputs with a missing or
empty name are skipped, matching `if name:`). -/
def formFields (f : Form) : FormData :=
  f.inputs.foldl
    (fun fd p =>
      match p.1 with
      | some n => if n = "" then fd else setA fd n (JVal.s p.2)
      | none => fd) []

/-- `AzureADLogin.extract_form_data`: fields and action URL of the first
form (or the form with the given id); `none` when no form matches. -/
def extract_form_data (forms : List Form) (form_id : Option String) :
    Option (FormData × Option String) :=
  let form? : Option Form := match form_id with
    | some fid => forms.find? (fun f => f.id == some fid)
    | none => forms.head?
  form?.map (fun f => (formFields f, f.action))

/-- `AzureADLogin.extract_saml_form`: the first form that has an input named
SAMLRequest/SAMLResponse/RelayState together with a truthy action URL. -/
def extract_saml_form : List Form → Option (FormData × String)
  | [] => none
  | f :: rest =>
    let fd := formFields f
    let has_saml := f.inputs.any (fun p =>
      p.1 == some "SAMLRequest" || p.1 == some "SAMLResponse" ||
      p.1 == some "RelayState")
    match f.action with
    | some a =>
      if has_saml && a ≠ "" then some (fd, a)
      else extract_saml_form rest
    | none => extract_saml_form rest

/-- `urlparse(base)` reduced to `f"{scheme}://{netloc}"`: everything before
the first `://`, then the authority up to the first `/`, `?` or `#`. -/
def schemeSplit : List Char → Option (List Char × List Char)
  | [] => none
  | ':' :: '/' :: '/' :: rest => some ([], rest)
  | c :: rest => (schemeSplit rest).map (fun p => (c :: p.1, p.2))

/-- `f"{parsed.scheme}://{parsed.netloc}"` for a base URL. -/
def urlOrigin (base : String) : String :=
  match schemeSplit base.toList with
  | some (sch, rest) =>
    let netloc := rest.takeWhile (fun c => c ≠ '/' && c ≠ '?' && c ≠ '#')
    String.mk sch ++ "://" ++ String.mk netloc
  | none => "://"

/-- Python's `s.startswith(pre)`. -/
def startsWithS (pre s : String) : Bool :=
  pre.toList.isPrefixOf s.toList

/-- `AzureADLogin.make_absolute_url` on a non-empty string URL. -/
def make_abs (u : String) (base : String) : String :=
  if startsWithS "http://" u || startsWithS "https://" u then u
  else urlOrigin base ++ u

/-- `AzureADLogin.make_absolute_url`: falsy input returned unchanged,
absolute URLs kept, relative URLs resolved against the base's origin. -/
def make_absolute_url (url : Option String) (base : String) : Option String :=
  match url with
  | none => none
  | some u => if u = "" then some "" else some (make_abs u base)

/-- `username if username else ''` (Python truthiness on an optional arg). -/
def optStr : Option String → String
  | some s => s
  | none => ""

/-- `config.get('sFTName', 'flowToken')` when it is usable as a field name. -/
def ftNameOf (cfg : Config) : String :=
  match getA cfg "sFTName" with
  | some (.s v) => v
  | _ => "flowToken"

/-- Whether `config.get('sFTName', 'flowToken')` is hashable as a dict key
(a JSON object there would raise `TypeError` in `form_data[ft_name] = ...`). -/
def ftNameOk (cfg : Config) : Bool :=
  match getA cfg "sFTName" with
  | some (.obj _) => false
  | _ => true

/-- `config['canary'] if 'canary' in config else config.get('apiCanary')`. -/
def canaryVal (cfg : Config) : Option JVal :=
  match getA cfg "canary" with
  | some v => some v
  | none => getA cfg "apiCanary"

/-- `config.get('hpgrequestid', config.get('sessionId', ''))`. -/
def hpgVal (cfg : Config) : JVal :=
  match getA cfg "hpgrequestid" with
  | some v => v
  | none =>
    match getA cfg "sessionId" with
    | some v => v
    | none => .s ""

/-- `form_data[key] = v` guarded by key presence in the config. -/
def maybeSet (fd : FormData) (key : String) (o : Option JVal) : FormData :=
  match o with
  | some v => setA fd key v
  | none => fd

/-- The ctx/canary/hpgrequestid block shared by the MFA form and the manual
fallback form (lines 181–190 and 214–223 of login.py are identical). -/
def tok2 (cfg : Config) (fd : FormData) : FormData :=
  let f1 := maybeSet fd "ctx" (getA cfg "sCtx")
  let f2 := maybeSet f1 "canary" (canaryVal cfg)
  if (getA cfg "hpgrequestid").isSome || (getA cfg "sessionId").isSome then
    setA f2 "hpgrequestid" (hpgVal cfg)
  else f2

/-- The anti-forgery/session token fields built from the config: the flow
token under its configured name, then ctx, canary, hpgrequestid.  `error`
models the `TypeError` raised when `sFTName` is a JSON object. -/
def token_fields (cfg : Config) : Except Unit FormData :=
  match getA cfg "sFT" with
  | some ftv =>
    if ftNameOk cfg then .ok (tok2 cfg (setA [] (ftNameOf cfg) ftv))
    else .error ()
  | none => .ok (tok2 cfg [])

/-- The manual fallback form (no `oPostParams`): token fields plus the fixed
field set the identity provider expects, lines 226–249 of login.py. -/
def fallback_form_data (cfg : Config) (username password : Option String) :
    Except Unit FormData :=
  match token_fields cfg with
  | .error e => .error e
  | .ok fd =>
    let fd := setA fd "i13" (JVal.s "0")
    let fd := setA fd "login" (JVal.s (optStr username))
    let fd := setA fd "loginfmt" (JVal.s (optStr username))
    let fd := setA fd "type" (JVal.s "11")
    let fd := setA fd "LoginOptions" (JVal.s "3")
    let fd := setA fd "lrt" (JVal.s "")
    let fd := setA fd "lrtPartition" (JVal.s "")
    let fd := setA fd "hisRegion" (JVal.s "")
    let fd := setA fd "hisScaleUnit" (JVal.s "")
    let fd := setA fd "passwd" (JVal.s (optStr password))
    let fd := setA fd "ps" (JVal.s "2")
    let fd := setA fd "psRNGCDefaultType" (JVal.s "")
    let fd := setA fd "psRNGCEntropy" (JVal.s "")
    let fd := setA fd "psRNGCSLK" (JVal.s "")
    let fd := setA fd "PPSX" (JVal.s "")
    let fd := setA fd "NewUser" (JVal.s "1")
    let fd := setA fd "FoundMSAs" (JVal.s "")
    let fd := setA fd "fspost" (JVal.s "0")
    let fd := setA fd "i21" (JVal.s "0")
    let fd := setA fd "CookieDisclosure" (JVal.s "0")
    let fd := setA fd "IsFidoSupported" (JVal.s "1")
    let fd := setA fd "isSignupPost" (JVal.s "0")
    let fd := setA fd "isRecoveryAttemptPost" (JVal.s "0")
    let fd := setA fd "i19" (JVal.s "1234")
    .ok fd

/-- `AzureADLogin.build_form_data_from_config`.  `for_mfa=True` builds only
the token fields; otherwise `oPostParams` is copied nearly verbatim
(overriding credentials when the arguments are truthy), falling back to the
manual field set.  `error` models a raised exception (`.copy()` on a
non-dict `oPostParams`, or an unhashable `sFTName`). -/
def build_form_data_from_config (cfg : Config)
    (username password : Option String) (for_mfa : Bool) :
    Except Unit FormData :=
  if for_mfa then token_fields cfg
  else
    match getA cfg "oPostParams" with
    | some (.obj kvs) =>
      let fd : FormData := kvs.map (fun p => (p.1, JVal.s p.2))
      let fd := match username with
        | some u => if u = "" then fd
            else setA (setA fd "login" (JVal.s u)) "loginfmt" (JVal.s u)
        | none => fd
      let fd := match password with
        | some p => if p = "" then fd else setA fd "passwd" (JVal.s p)
        | none => fd
      .ok fd
    | some (.s _) => .error ()
    | none => fallback_form_data cfg username password

/-- HTTP request method. -/
inductive Method where
  | GET
  | POST
deriving DecidableEq, Repr

/-- One attempted HTTP call: method, URL and form body. -/
structure Request where
  method : Method
  url : String
  data : FormData
deriving DecidableEq, Repr

/-- Sequencer state: the network oracle (scripted responses, `none` being a
transport exception) and the trace of attempted requests. -/
abbrev St := List (Option Response) × List Request

/-- Issue one HTTP call: consume the next oracle entry and record the
request; an exhausted oracle behaves as a transport exception. -/
def http (st : St) (req : Request) : Option Response × St :=
  match st.1 with
  | [] => (none, ([], st.2 ++ [req]))
  | x :: rest => (x, (rest, st.2 ++ [req]))

/-- Whether an `Except` is the error case. -/
def isErr {ε α : Type} : Except ε α → Bool
  | .error _ => true
  | .ok _ => false

/-- A GET whose non-200 status (or transport failure) is immediately fatal. -/
def get_checked (st : St) (url : String) : Except St (Response × St) :=
  match http st ⟨.GET, url, []⟩ with
  | (none, st2) => .error st2
  | (some r, st2) =>
    if r.status_code ≠ 200 then .error st2 else .ok (r, st2)

/-- A POST whose non-200 status (or transport failure) is immediately fatal. -/
def post_checked (st : St) (url : String) (fd : FormData) :
    Except St (Response × St) :=
  match http st ⟨.POST, url, fd⟩ with
  | (none, st2) => .error st2
  | (some r, st2) =>
    if r.status_code ≠ 200 then .error st2 else .ok (r, st2)

/-- A POST whose status is never inspected; only a transport exception is
fatal (it propagates to `login`'s outer `except`). -/
def post_unchecked (st : St) (url : String) (fd : FormData) :
    Except St (Response × St) :=
  match http st ⟨.POST, url, fd⟩ with
  | (none, st2) => .error st2
  | (some r, st2) => .ok (r, st2)

/-- The early-exit test after the initial fetch (login.py lines 320–325):
already authenticated when the lowered final URL contains a target host and
contains neither `login` nor `saml`. -/
def already_authenticated (url : String) : Bool :=
  let fu := strLower url
  (substr "learning.london.edu" fu || substr "london.instructure.com" fu) &&
  (!(substr "login" fu) && !(substr "saml" fu))

/-- The end-of-run classification (login.py lines 548–581): a target-host
final URL, or a sign-out/logout marker in the body, is success; otherwise an
error/incorrect marker in the body is failure; anything else is ambiguous
success.  `true` means `login` returns the session. -/
def final_check (r : Response) : Bool :=
  let fu := strLower r.url
  if substr "learning.london.edu" fu || substr "london.instructure.com" fu then
    true
  else if substr "sign out" (strLower r.text) ||
      substr "logout" (strLower r.text) then
    true
  else if substr "error" (strLower r.text) ||
      substr "incorrect" (strLower r.text) then
    false
  else true

/-- The approval test inside the polling loop of `wait_for_auth_approval`:
no Authenticator marker, no displaySign marker, and the URL moved away from
the challenge page. -/
def approvedB (r0 pr : Response) : Bool :=
  !(substr "Authenticator" pr.text) && !(substr "displaySign" pr.text) &&
  pr.url != r0.url

/-- A poll outcome that keeps the loop waiting: a response (not an
exception) that still fails the approval test. -/
def notApprovedB (r0 : Response) (x : Option Response) : Bool :=
  match x with
  | none => false
  | some pr => !approvedB r0 pr

/-- The polling loop of `wait_for_auth_approval`: at most `fuel` polls (the
wall-clock deadline divided by the 3-second interval); an approved response
is returned at once; a transport exception breaks the loop and the original
challenge page is returned; so is it when the fuel runs out. -/
def poll_loop (r0 : Response) (purl : String) (fd : FormData) :
    Nat → St → Response × St
  | 0, st => (r0, st)
  | fuel + 1, st =>
    match http st ⟨.POST, purl, fd⟩ with
    | (none, st2) => (r0, st2)
    | (some pr, st2) =>
      if approvedB r0 pr then (pr, st2)
      else poll_loop r0 purl fd fuel st2

/-- `AzureADLogin.wait_for_auth_approval`: extract the config from the
challenge page; with no config or no truthy polling URL, hand the original
page straight back (after prompting the operator); otherwise poll the
resolved endpoint with the token-only form plus Method=EndAuth.  `error`
models an exception escaping to `login`'s handler (a JSON-object polling
URL, or an unhashable `sFTName`). -/
def wait_for_auth_approval (jp : String → Option Config) (r : Response)
    (polls : Nat) (st : St) : Except St (Response × St) :=
  let cfg := extract_config_from_script jp r.scripts
  if cfg.isEmpty then .ok (r, st)
  else
    match pyOrJ (pyOrJ (getA cfg "urlEndAuth") (getA cfg "urlPost"))
        (getA cfg "urlBeginAuth") with
    | none => .ok (r, st)
    | some (.obj l) => if l.isEmpty then .ok (r, st) else .error st
    | some (.s v) =>
      if v = "" then .ok (r, st)
      else
        match build_form_data_from_config cfg none none true with
        | .error _ => .error st
        | .ok fd0 =>
          let fd := setA (setA fd0 "Method" (JVal.s "EndAuth"))
            "AuthMethodId" (JVal.s "PhoneAppNotification")
          .ok (poll_loop r (make_abs v r.url) fd polls st)

/-- Step 1 of `login`: GET the entry URL; any non-200 status is fatal. -/
def initial_fetch (u : String) (st : St) : Except St (Response × St) :=
  get_checked st u

/-- The form-based arm of the SAML hop: POST the auto-submit SAML form when
one is present (checked), otherwise pass the response through untouched. -/
def saml_form_fallback (r : Response) (st : St) :
    Except St (Response × St) :=
  match extract_saml_form r.forms with
  | some (fd, a) => post_checked st (make_abs a r.url) fd
  | none => .ok (r, st)

/-- The SAML single-sign-on hop (login.py lines 327–363): a config `urlPost`
mentioning SAMLRequest is followed with a checked GET; otherwise the
form-based fallback runs. -/
def saml_hop (jp : String → Option Config) (r : Response) (st : St) :
    Except St (Response × St) :=
  let cfg := extract_config_from_script jp r.scripts
  match getA cfg "urlPost" with
  | some (.s v) =>
    if substr "SAMLRequest" v then get_checked st (make_abs v r.url)
    else saml_form_fallback r st
  | some (.obj kvs) =>
    if kvs.any (fun p => p.1 == "SAMLRequest") then .error st
    else saml_form_fallback r st
  | none => saml_form_fallback r st

/-- The action URL for the credential POSTs:
`config.get('urlPost') or config.get('urlPostAad')`, made absolute, then the
`if not action_url` falsiness check; `error` models the `AttributeError`
raised when the chosen value is a (truthy) JSON object. -/
def action_from (cfg : Config) (base : String) : Except Unit (Option String) :=
  match pyOrJ (getA cfg "urlPost") (getA cfg "urlPostAad") with
  | none => .ok none
  | some (.s v) => if v = "" then .ok none else .ok (some (make_abs v base))
  | some (.obj l) => if l.isEmpty then .ok none else .error ()

/-- Derive the username-submission form and target (login.py lines 374–397):
config route when a config was extracted, raw-form fallback otherwise;
`none` models every fatal outcome (missing form, missing action URL, raised
exception) — all of them make `login` return `None` with no request sent. -/
def derive_username (jp : String → Option Config) (u : String)
    (r : Response) : Option (FormData × String) :=
  let cfg := extract_config_from_script jp r.scripts
  if cfg.isEmpty then
    match extract_form_data r.forms none with
    | none => none
    | some (fd, a?) =>
      if fd.isEmpty then none
      else
        let fd := setA (setA fd "loginfmt" (JVal.s u)) "login" (JVal.s u)
        match a? with
        | none => none
        | some a => if a = "" then none else some (fd, a)
  else
    match build_form_data_from_config cfg (some u) none false with
    | .error _ => none
    | .ok fd =>
      match action_from cfg r.url with
      | .error _ => none
      | .ok none => none
      | .ok (some a) => some (fd, a)

/-- Step 2 of `login`: submit the username; non-200 is fatal. -/
def submit_username (jp : String → Option Config) (u : String)
    (r : Response) (st : St) : Except St (Response × St) :=
  match derive_username jp u r with
  | none => .error st
  | some (fd, a) => post_checked st a fd

/-- Derive the password-submission form and target (login.py lines
411–433); same structure as the username step, the fallback setting only
`passwd`. -/
def derive_password (jp : String → Option Config) (u p : String)
    (r : Response) : Option (FormData × String) :=
  let cfg := extract_config_from_script jp r.scripts
  if cfg.isEmpty then
    match extract_form_data r.forms none with
    | none => none
    | some (fd, a?) =>
      if fd.isEmpty then none
      else
        let fd := setA fd "passwd" (JVal.s p)
        match a? with
        | none => none
        | some a => if a = "" then none else some (fd, a)
  else
    match build_form_data_from_config cfg (some u) (some p) false with
    | .error _ => none
    | .ok fd =>
      match action_from cfg r.url with
      | .error _ => none
      | .ok none => none
      | .ok (some a) => some (fd, a)

/-- Step 3 of `login`: submit the password; non-200 is fatal. -/
def submit_password (jp : String → Option Config) (u p : String)
    (r : Response) (st : St) : Except St (Response × St) :=
  match derive_password jp u p r with
  | none => .error st
  | some (fd, a) => post_checked st a fd

/-- Step 4 of `login` (lines 445–523): when the response carries an MFA
marker, initiate the second factor.  With a config present, the token-only
form plus AuthMethodId is POSTed to `urlPost` (ProcessAuth) or, failing
that, to `urlBeginAuth` followed by one EndAuth poll; none of these POSTs
has its status checked.  Control then passes to `wait_for_auth_approval`
on the latest response. -/
def mfa_step (jp : String → Option Config) (r : Response) (polls : Nat)
    (st : St) : Except St (Response × St) :=
  if !(substr "Authenticator" r.text || substr "ConvergedTFA" r.text ||
       substr "PhoneAppNotification" r.text) then .ok (r, st)
  else
    let cfg := extract_config_from_script jp r.scripts
    if cfg.isEmpty then wait_for_auth_approval jp r polls st
    else
      match build_form_data_from_config cfg none none true with
      | .error _ => .error st
      | .ok fd0 =>
        let fd := setA fd0 "AuthMethodId" (JVal.s "PhoneAppNotification")
        match getA cfg "urlPost" with
        | some (.obj _) => .error st
        | some (.s v) =>
          if v = "" then .error st
          else
            match post_unchecked st (make_abs v r.url) fd with
            | .error st2 => .error st2
            | .ok (r2, st2) => wait_for_auth_approval jp r2 polls st2
        | none =>
          match getA cfg "urlBeginAuth" with
          | some (.obj _) => .error st
          | some (.s v) =>
            if v = "" then .error st
            else
              let fdB := setA fd "Method" (JVal.s "BeginAuth")
              match post_unchecked st (make_abs v r.url) fdB with
              | .error st2 => .error st2
              | .ok (rBegin, st2) =>
                match pyOrJ (getA cfg "urlEndAuth") (getA cfg "urlPost") with
                | none => wait_for_auth_approval jp rBegin polls st2
                | some (.obj l) =>
                  if l.isEmpty then wait_for_auth_approval jp rBegin polls st2
                  else .error st2
                | some (.s v2) =>
                  if v2 = "" then wait_for_auth_approval jp rBegin polls st2
                  else
                    match build_form_data_from_config cfg none none true with
                    | .error _ => .error st2
                    | .ok fdP0 =>
                      let fdP := setA (setA fdP0 "Method" (JVal.s "EndAuth"))
                        "AuthMethodId" (JVal.s "PhoneAppNotification")
                      match post_unchecked st2 (make_abs v2 r.url) fdP with
                      | .error st3 => .error st3
                      | .ok (rPoll, st3) =>
                        wait_for_auth_approval jp rPoll polls st3
          | none => wait_for_auth_approval jp r polls st

/-- Step 5 of `login` (lines 528–546): when the response carries the
"Stay signed in" / KmsiInterrupt marker, rebuild the form (config route or
raw-form fallback), force `LoginOptions = '1'` (do not stay signed in) and
POST it — with no status check; when no form or no action URL can be
derived the prompt is skipped and the response passes through unchanged. -/
def kmsi_step (jp : String → Option Config) (r : Response) (st : St) :
    Except St (Response × St) :=
  if !(substr "Stay signed in" r.text || substr "KmsiInterrupt" r.text) then
    .ok (r, st)
  else
    let cfg := extract_config_from_script jp r.scripts
    if cfg.isEmpty then
      match extract_form_data r.forms none with
      | none => .ok (r, st)
      | some (fd, a?) =>
        if fd.isEmpty then .ok (r, st)
        else
          let fd := setA fd "LoginOptions" (JVal.s "1")
          match a? with
          | none => .ok (r, st)
          | some a => if a = "" then .ok (r, st) else post_unchecked st a fd
    else
      match build_form_data_from_config cfg none none false with
      | .error _ => .error st
      | .ok fd0 =>
        let fd := setA fd0 "LoginOptions" (JVal.s "1")
        match getA cfg "urlPost" with
        | none => .ok (r, st)
        | some (.obj l) => if l.isEmpty then .ok (r, st) else .error st
        | some (.s v) =>
          if v = "" then .ok (r, st)
          else post_unchecked st (make_abs v r.url) fd

/-- The request trace held in the outcome of a sequencer step. -/
def kmsiTrace : Except St (Response × St) → List Request
  | .error st => st.2
  | .ok (_, st) => st.2

/-- The page snapshot returned by `wait_for_auth_approval`, `none` when the
call raised instead of returning. -/
def waitPage : Except St (Response × St) → Option Response
  | .ok (p, _) => some p
  | .error _ => none

/-- `AzureADLogin.login`: the full sequence.  Returns whether the session
was returned (`some ()`) or `None`, together with the trace of attempted
HTTP requests.  `jp` models `json.loads`, `polls` the second-factor
deadline (number of 3-second polls), `oracle` the network. -/
def login (jp : String → Option Config) (username password : String)
    (initial_url : Option String) (polls : Nat)
    (oracle : List (Option Response)) : Option Unit × List Request :=
  match initial_url with
  | none => (none, [])
  | some u =>
    if u = "" then (none, [])
    else
      match initial_fetch u (oracle, []) with
      | .error st => (none, st.2)
      | .ok (r, st) =>
        if already_authenticated r.url then (some (), st.2)
        else
          match saml_hop jp r st with
          | .error st => (none, st.2)
          | .ok (r, st) =>
            match submit_username jp username r st with
            | .error st => (none, st.2)
            | .ok (r, st) =>
              match submit_password jp username password r st with
              | .error st => (none, st.2)
              | .ok (r, st) =>
                match mfa_step jp r polls st with
                | .error st => (none, st.2)
                | .ok (r, st) =>
                  match kmsi_step jp r st with
                  | .error st => (none, st.2)
                  | .ok (r, st) =>
                    (if final_check r then some () else none, st.2)

/-- One cookie as held in a `requests` session jar. -/
structure ReqCookie where
  name : String
  value : String
  domain : String
  path : String
deriving DecidableEq, Repr

/-- One entry of the persisted session file: the attributes
`AzureADLogin.save_session` writes per cookie name. -/
structure SavedCookie where
  value : String
  domain : String
  path : String
deriving DecidableEq, Repr

/-- The cookie dict built by `AzureADLogin.save_session` before writing:
keyed by cookie name, a later cookie with the same name overwriting an
earlier one. -/
def save_dict (jar : List ReqCookie) : List (String × SavedCookie) :=
  jar.foldl (fun d c => setA d c.name ⟨c.value, c.domain, c.path⟩) []

/-- `AzureADLogin.save_session`: build the dict and write it.  There is no
`try/except` around the write, so a write failure propagates to the
caller; the write itself is an external effect, modelled by `write`. -/
def azuread_save_session (jar : List ReqCookie)
    (write : List (String × SavedCookie) → Except String Unit) :
    Except String Unit :=
  write (save_dict jar)

/-- `AzureADLogin.load_session` applied to a successfully read session
file: inject every entry into the (fresh) session jar with the stored
value, domain and path. -/
def azuread_load_session (file : List (String × SavedCookie)) :
    List ReqCookie :=
  file.map (fun p => ⟨p.1, p.2.value, p.2.domain, p.2.path⟩)

/-- One cookie dict entry as built by run.py / book_room.py from Selenium's
`get_cookies()`. -/
structure DriverCookie where
  value : String
  domain : String
  path : String
  secure : Bool
deriving DecidableEq, Repr

/-- `StudyGroupManager.save_session` (run.py lines 118–127): the write is
wrapped in `try/except`; an error is printed and `False` returned, so no
exception crosses the function boundary (hence the `.ok` result type). -/
def run_save_session (cookies : List (String × DriverCookie))
    (write : List (String × DriverCookie) → Except String Unit) :
    Except String Bool :=
  match write cookies with
  | .ok _ => .ok true
  | .error _ => .ok false

/-- `save_session` in book_room.py (lines 127–136): identical handling to
run.py's — the write error is caught and `False` returned. -/
def book_room_save_session (cookies : List (String × DriverCookie))
    (write : List (String × DriverCookie) → Except String Unit) :
    Except String Bool :=
  match write cookies with
  | .ok _ => .ok true
  | .error _ => .ok false

/-- The (name, value, domain, path) view of a jar cookie. -/
def cookieQuad (c : ReqCookie) : String × String × String × String :=
  (c.name, c.value, c.domain, c.path)

/-- The (name, value, domain, path) view of a session-file entry. -/
def savedQuad (p : String × SavedCookie) : String × String × String × String :=
  (p.1, p.2.value, p.2.domain, p.2.path)

/-- A config whose setup never raises inside `wait_for_auth_approval`: the
chosen polling URL is not a (truthy) JSON object and `sFTName` is not a
JSON object.  Real provider configs (string-valued URL and token fields)
always satisfy this. -/
def mfaCfgSafe (cfg : Config) : Bool :=
  (match pyOrJ (pyOrJ (getA cfg "urlEndAuth") (getA cfg "urlPost"))
      (getA cfg "urlBeginAuth") with
   | some (.obj l) => l.isEmpty
   | _ => true) &&
  (match getA cfg "sFTName" with
   | some (.obj _) => false
   | _ => true)

/-- A parser stub for runs whose pages embed no parsable config. -/
def jpNone : String → Option Config := fun _ => none

/-- Parser for the run of `oracle3`: two configs carrying only `urlPost`. -/
def jp3 : String → Option Config := fun s =>
  if s = "\x7bC1\x7d" then some [("urlPost", JVal.s "https://ms.example/u1")]
  else if s = "\x7bC2\x7d" then
    some [("urlPost", JVal.s "https://ms.example/auth")]
  else none

/-- Initial page of the `oracle3` run (Microsoft login page with config). -/
def page3a : Response :=
  ⟨200, "https://login.microsoftonline.com/s1", "",
   ["$Config=\x7bC1\x7d;"], []⟩

/-- Password page of the `oracle3` run. -/
def page3b : Response :=
  ⟨200, "https://ms.example/p", "", ["$Config=\x7bC1\x7d;"], []⟩

/-- MFA challenge page of the `oracle3` run. -/
def page3c : Response :=
  ⟨200, "https://ms.example/mfa", "Authenticator",
   ["$Config=\x7bC2\x7d;"], []⟩

/-- The response to the MFA-initiation (ProcessAuth) POST in the `oracle3`
run: HTTP 500, already on the authenticated target host. -/
def page3d : Response :=
  ⟨500, "https://learning.london.edu/home", "", [], []⟩

/-- A login run whose MFA-initiation POST is answered with HTTP 500. -/
def oracle3 : List (Option Response) :=
  [some page3a, some page3b, some page3c, some page3d]

/-- Parser for the run of `oracle8`: one config carrying only `urlPost`. -/
def jp8 : String → Option Config := fun s =>
  if s = "\x7bA\x7d" then some [("urlPost", JVal.s "https://ms.example/next")]
  else none

/-- Initial page of the `oracle8` run. -/
def page8a : Response :=
  ⟨200, "https://login.microsoftonline.com/s1", "",
   ["$Config=\x7bA\x7d;"], []⟩

/-- Password page of the `oracle8` run. -/
def page8b : Response :=
  ⟨200, "https://login.microsoftonline.com/s2", "",
   ["$Config=\x7bA\x7d;"], []⟩

/-- A KmsiInterrupt page that embeds no config and contains no form: the
"stay signed in" choice cannot be derived from it. -/
def kmsiBarePage : Response :=
  ⟨200, "https://login.microsoftonline.com/kmsi", "KmsiInterrupt", [], []⟩

/-- A run whose final response carries the KmsiInterrupt marker but offers
neither a config nor a form. -/
def oracle8 : List (Option Response) :=
  [some page8a, some page8b, some kmsiBarePage]

/-- A 500 response whose final URL is already on the authenticated target
host with none of the login/auth/microsoft/saml markers. -/
def page4 : Response :=
  ⟨500, "https://learning.london.edu/home", "", [], []⟩

/-- Parser for the witness run of claim C5. -/
def jp5 : String → Option Config := fun s =>
  if s = "\x7bW\x7d" then
    some [("urlEndAuth", JVal.s "https://ms.example/poll")]
  else none

/-- The MFA challenge page of the C5 witness run. -/
def chalPage : Response :=
  ⟨200, "https://ms.example/chal", "Authenticator please approve",
   ["$Config=\x7bW\x7d;"], []⟩

/-- A pending poll response: still on the challenge URL, still showing the
Authenticator marker. -/
def pendPage : Response :=
  ⟨200, "https://ms.example/chal", "Authenticator please approve", [], []⟩

/-- Parser for the C7 witness: parses exactly the embedded object
`{"k":1}` (where the value is read as the string-scalar "1"). -/
def jp7 : String → Option Config := fun s =>
  if s = "\x7b\"k\":1\x7d" then some [("k", JVal.s "1")] else none

/-- A page whose only submission route is a raw form (no config). -/
def formPage : Response :=
  ⟨200, "https://ms.example/a", "", [],
   [⟨none, some "https://ms.example/post", [(some "flowToken", "t")]⟩]⟩

/-- A "Stay signed in" interstitial that does embed a config. -/
def kmsiCfgPage : Response :=
  ⟨200, "https://login.microsoftonline.com/kmsi2", "Stay signed in",
   ["$Config=\x7bA\x7d;"], []⟩

/-- The single request the keep-signed-in step issues on `kmsiCfgPage`. -/
def kmsiReq : Request :=
  ⟨Method.POST, "https://ms.example/next",
   [("i13", JVal.s "0"), ("login", JVal.s ""), ("loginfmt", JVal.s ""),
    ("type", JVal.s "11"), ("LoginOptions", JVal.s "1"), ("lrt", JVal.s ""),
    ("lrtPartition", JVal.s ""), ("hisRegion", JVal.s ""),
    ("hisScaleUnit", JVal.s ""), ("passwd", JVal.s ""), ("ps", JVal.s "2"),
    ("psRNGCDefaultType", JVal.s ""), ("psRNGCEntropy", JVal.s ""),
    ("psRNGCSLK", JVal.s ""), ("PPSX", JVal.s ""), ("NewUser", JVal.s "1"),
    ("FoundMSAs", JVal.s ""), ("fspost", JVal.s "0"), ("i21", JVal.s "0"),
    ("CookieDisclosure", JVal.s "0"), ("IsFidoSupported", JVal.s "1"),
    ("isSignupPost", JVal.s "0"), ("isRecoveryAttemptPost", JVal.s "0"),
    ("i19", JVal.s "1234")]⟩

theorem find?_map_replace {α : Type} (k : String) (v : α) :
    ∀ (d : List (String × α)), d.any (fun p => p.1 == k) = true →
      (d.map (fun p => if p.1 == k then (k, v) else p)).find?
        (fun p => p.1 == k) = some (k, v)
  | [], h => by simp at h
  | hd :: tl, h => by
    rw [List.map_cons]
    by_cases hk : (hd.1 == k) = true
    · rw [if_pos hk]
      simp [List.find?]
    · rw [if_neg hk]
      have hkf : (hd.1 == k) = false := by simpa using hk
      have htl : tl.any (fun p => p.1 == k) = true := by
        simp only [List.any_cons, hkf, Bool.false_or] at h
        exact h
      simp only [List.find?_cons, hkf]
      exact find?_map_replace k v tl htl

/-- Dict lookup skips an entry with a different key. -/
theorem getA_cons_of_neg {α : Type} {hd : String × α} {d : List (String × α)}
    {k : String} (hk : (hd.1 == k) = false) :
    getA (hd :: d) k = getA d k := by
  unfold getA
  rw [List.find?_cons_of_neg _ (by simp [hk])]

theorem getA_append_single {α : Type} (k : String) (v : α) :
    ∀ (d : List (String × α)), d.any (fun p => p.1 == k) = false →
      getA (d ++ [(k, v)]) k = some v
  | [], _ => by simp [getA, List.find?]
  | hd :: tl, h => by
    have hk : (hd.1 == k) = false := by
      simp only [List.any_cons, Bool.or_eq_false_iff] at h
      exact h.1
    have htl : tl.any (fun p => p.1 == k) = false := by
      simp only [List.any_cons, Bool.or_eq_false_iff] at h
      exact h.2
    rw [List.cons_append, getA_cons_of_neg hk]
    exact getA_append_single k v tl htl

/-- Dict lookup after dict assignment of the same key. -/
theorem getA_setA_self {α : Type} (d : List (String × α)) (k : String)
    (v : α) : getA (setA d k v) k = some v := by
  unfold setA
  by_cases h : d.any (fun p => p.1 == k) = true
  · rw [if_pos h]
    unfold getA
    rw [find?_map_replace k v d h]
    rfl
  · rw [if_neg h]
    exact getA_append_single k v d (eq_false_of_ne_true h)

/-- A member of `setA d k v` is either keyed by `k` or was in `d`. -/
theorem mem_setA {α : Type} {d : List (String × α)} {k : String} {v : α}
    {kv : String × α} (h : kv ∈ setA d k v) : kv.1 = k ∨ kv ∈ d := by
  unfold setA at h
  by_cases ha : d.any (fun p => p.1 == k) = true
  · rw [if_pos ha] at h
    rcases List.mem_map.mp h with ⟨p, hp, heq⟩
    by_cases hk : (p.1 == k) = true
    · rw [if_pos hk] at heq
      exact Or.inl (by rw [← heq])
    · rw [if_neg hk] at heq
      exact Or.inr (heq ▸ hp)
  · rw [if_neg ha] at h
    rcases List.mem_append.mp h with hp | hp
    · exact Or.inr hp
    · rcases List.mem_singleton.mp hp with rfl
      exact Or.inl rfl

/-- A successful dict lookup exhibits a member with the looked-up key. -/
theorem getA_isSome_mem {α : Type} {d : List (String × α)} {k : String}
    (h : (getA d k).isSome = true) : ∃ kv, kv ∈ d ∧ kv.1 = k := by
  unfold getA at h
  cases hf : d.find? (fun p => p.1 == k) with
  | none => rw [hf] at h; simp at h
  | some kv =>
    refine ⟨kv, List.mem_of_find?_eq_some hf, ?_⟩
    have := List.find?_some hf
    simpa using this

theorem mem_maybeSet {fd : FormData} {key : String} {o : Option JVal}
    {kv : String × JVal} (h : kv ∈ maybeSet fd key o) :
    kv.1 = key ∨ kv ∈ fd := by
  cases o with
  | none => exact Or.inr h
  | some v => exact mem_setA h

/-- Members of the shared ctx/canary/hpgrequestid block. -/
theorem mem_tok2 {cfg : Config} {fd : FormData} {kv : String × JVal}
    (h : kv ∈ tok2 cfg fd) :
    kv.1 = "ctx" ∨ kv.1 = "canary" ∨ kv.1 = "hpgrequestid" ∨ kv ∈ fd := by
  unfold tok2 at h
  by_cases h3 : ((getA cfg "hpgrequestid").isSome ||
      (getA cfg "sessionId").isSome) = true
  · rw [if_pos h3] at h
    rcases mem_setA h with h | h
    · exact Or.inr (Or.inr (Or.inl h))
    · rcases mem_maybeSet h with h | h
      · exact Or.inr (Or.inl h)
      · rcases mem_maybeSet h with h | h
        · exact Or.inl h
        · exact Or.inr (Or.inr (Or.inr h))
  · rw [if_neg h3] at h
    rcases mem_maybeSet h with h | h
    · exact Or.inr (Or.inl h)
    · rcases mem_maybeSet h with h | h
      · exact Or.inl h
      · exact Or.inr (Or.inr (Or.inr h))

/-- Members of the token-only (MFA) form are among the four token fields. -/
theorem mem_token_fields {cfg : Config} {fd : FormData} {kv : String × JVal}
    (h : token_fields cfg = .ok fd) (hm : kv ∈ fd) :
    kv.1 = ftNameOf cfg ∨ kv.1 = "ctx" ∨ kv.1 = "canary" ∨
      kv.1 = "hpgrequestid" := by
  unfold token_fields at h
  split at h
  · split at h
    · injection h with h2
      subst h2
      rcases mem_tok2 hm with h | h | h | h
      · exact Or.inr (Or.inl h)
      · exact Or.inr (Or.inr (Or.inl h))
      · exact Or.inr (Or.inr (Or.inr h))
      · rcases mem_setA h with h | h
        · exact Or.inl h
        · simp at h
    · simp at h
  · injection h with h2
    subst h2
    rcases mem_tok2 hm with h | h | h | h
    · exact Or.inr (Or.inl h)
    · exact Or.inr (Or.inr (Or.inl h))
    · exact Or.inr (Or.inr (Or.inr h))
    · simp at h

/-- When `sFTName` is not a JSON object the token form always builds. -/
theorem token_fields_ok_of {cfg : Config} (h : ftNameOk cfg = true) :
    ∃ fd, token_fields cfg = .ok fd := by
  unfold token_fields
  split
  · rw [if_pos h]
    exact ⟨_, rfl⟩
  · exact ⟨_, rfl⟩

theorem waitPage_ok (x : Response × St) : waitPage (.ok x) = some x.1 := rfl

/-- A fold of `configStep` over scripts none of which yields a parsed
config leaves the accumulator unchanged. -/
theorem foldl_configStep_noop (jp : String → Option Config) :
    ∀ (l : List String) (acc : Config),
      (∀ s ∈ l, substr "$Config=" s = false ∨
        (configCandidate s).bind jp = none) →
      l.foldl (configStep jp) acc = acc
  | [], acc, _ => rfl
  | s :: tl, acc, h => by
    have hs := h s (List.mem_cons_self s tl)
    have hstep : configStep jp acc s = acc := by
      unfold configStep
      rcases hs with hs | hs
      · simp [hs]
      · rw [hs]
        split <;> rfl
    rw [List.foldl_cons, hstep]
    exact foldl_configStep_noop jp tl acc (fun t ht => h t (List.mem_cons_of_mem s ht))

/-- While every scripted poll outcome is a still-pending response, the
polling loop always hands back the original challenge page. -/
theorem poll_loop_pending (r0 : Response) (purl : String) (fd : FormData) :
    ∀ (fuel : Nat) (o : List (Option Response)) (t : List Request),
      (∀ x ∈ o, notApprovedB r0 x = true) →
      (poll_loop r0 purl fd fuel (o, t)).1 = r0
  | 0, _, _, _ => rfl
  | fuel + 1, [], t, _ => rfl
  | fuel + 1, x :: rest, t, h => by
    have hx := h x (List.mem_cons_self x rest)
    cases x with
    | none => simp [notApprovedB] at hx
    | some pr =>
      have hap : approvedB r0 pr = false := by
        simpa [notApprovedB] using hx
      show (poll_loop r0 purl fd (fuel + 1) (some pr :: rest, t)).1 = r0
      simp only [poll_loop, http, hap]
      exact poll_loop_pending r0 purl fd fuel rest (t ++ [⟨Method.POST, purl, fd⟩])
        (fun y hy => h y (List.mem_cons_of_mem _ hy))

/-- Claim C1: every response whose final URL contains an
authenticated-target host (learning.london.edu or london.instructure.com)
and none of the markers login/auth/microsoft/saml is classified as
authenticated by the sequencer — both by the end-of-run classification
(`final_check`, so `login` returns the session) and by the early
already-authenticated test — regardless of the response body's content. -/
theorem C1_authenticated_classification (r : Response)
    (hhost : substr "learning.london.edu" (strLower r.url) = true ∨
      substr "london.instructure.com" (strLower r.url) = true)
    (hlogin : substr "login" (strLower r.url) = false)
    (hauth : substr "auth" (strLower r.url) = false)
    (hms : substr "microsoft" (strLower r.url) = false)
    (hsaml : substr "saml" (strLower r.url) = false) :
    final_check r = true ∧ already_authenticated r.url = true := by
  constructor
  · unfold final_check
    rcases hhost with h | h <;> simp [h]
  · unfold already_authenticated
    rcases hhost with h | h <;> simp [h, hlogin, hsaml]

/-- Witness for C1: a target-host URL together with a body that even
contains the words "error" and "incorrect" is still classified as
authenticated. -/
theorem C1_witness :
    final_check ⟨200, "https://learning.london.edu/home",
      "Error: incorrect password", [], []⟩ = true ∧
    already_authenticated "https://learning.london.edu/home" = true :=
  C1_authenticated_classification
    ⟨200, "https://learning.london.edu/home", "Error: incorrect password",
     [], []⟩
    (Or.inl (by decide)) (by decide) (by decide) (by decide) (by decide)

/-- Claim C2 (amended): `AzureADLogin.save_session` (login.py) propagates a
write failure to its caller, but `StudyGroupManager.save_session` (run.py)
and `save_session` in book_room.py catch the failure, print it, and return
`False` instead of propagating. -/
theorem C2_amended_save_session_error_handling :
    ∀ (jar : List ReqCookie) (cs : List (String × DriverCookie)) (e : String),
      azuread_save_session jar (fun _ => Except.error e) = Except.error e ∧
      run_save_session cs (fun _ => Except.error e) = Except.ok false ∧
      book_room_save_session cs (fun _ => Except.error e) = Except.ok false :=
  fun _ _ _ => ⟨rfl, rfl, rfl⟩

/-- Counterexample to C2 as stated: when the write fails,
run.py's and book_room.py's `save_session` return normally with `False`
(no error crosses the function boundary), instead of propagating. -/
theorem C2_counterexample_suppressed_write_error :
    run_save_session [] (fun _ => Except.error "disk full") =
      Except.ok false ∧
    book_room_save_session [] (fun _ => Except.error "disk full") =
      Except.ok false :=
  ⟨rfl, rfl⟩

/-- Claim C6: the cookies injected by `load_session` from a file written by
`save_session` have exactly the captured names, values, domains and paths. -/
theorem C6_save_load_round_trip (jar : List ReqCookie) :
    (azuread_load_session (save_dict jar)).map cookieQuad =
      (save_dict jar).map savedQuad := by
  generalize save_dict jar = l
  induction l with
  | nil => rfl
  | cons p tl ih =>
    cases p with
    | mk n sc =>
      simp only [azuread_load_session, List.map_cons] at *
      rw [ih]
      rfl

/-- Claim C7: `extract_config_from_script` is total (never raises) and
(a) returns the empty mapping whenever no script yields a parsed config —
no `$Config=` marker, no regex match, or malformed JSON — and (b) returns
exactly the embedded object when one script carries a well-formed config
and no later script overrides it. -/
theorem C7_extract_config_behaviour (jp : String → Option Config)
    (scripts : List String) :
    ((∀ s ∈ scripts, substr "$Config=" s = false ∨
        (configCandidate s).bind jp = none) →
      extract_config_from_script jp scripts = []) ∧
    (∀ (l1 : List String) (s : String) (l2 : List String) (cfg : Config),
      scripts = l1 ++ s :: l2 →
      substr "$Config=" s = true →
      (configCandidate s).bind jp = some cfg →
      (∀ t ∈ l2, substr "$Config=" t = false ∨
        (configCandidate t).bind jp = none) →
      extract_config_from_script jp scripts = cfg) := by
  constructor
  · intro h
    exact foldl_configStep_noop jp scripts [] h
  · intro l1 s l2 cfg hsp hm hp h2
    subst hsp
    unfold extract_config_from_script
    rw [List.foldl_append, List.foldl_cons]
    have hstep : configStep jp (List.foldl (configStep jp) [] l1) s = cfg := by
      unfold configStep
      rw [hm, hp]
      rfl
    rw [hstep]
    exact foldl_configStep_noop jp l2 cfg h2

/-- Witness for C7: a page with no marker yields the empty mapping; a page
embedding `$Config={"k":1};` yields exactly the parsed object. -/
theorem C7_witness :
    extract_config_from_script jp7 ["<p>hello</p>"] = [] ∧
    extract_config_from_script jp7 ["var $Config=\x7b\"k\":1\x7d;"] =
      [("k", JVal.s "1")] :=
  ⟨(C7_extract_config_behaviour jp7 ["<p>hello</p>"]).1 (by decide),
   (C7_extract_config_behaviour jp7 ["var $Config=\x7b\"k\":1\x7d;"]).2
     [] "var $Config=\x7b\"k\":1\x7d;" [] [("k", JVal.s "1")]
     rfl (by decide) (by decide) (by decide)⟩

/-- Claim C5: for every challenge page (with a config whose polling
fields have the ordinary string shapes, `mfaCfgSafe`), if every poll until
the deadline observes no state change — the response still carries an
Authenticator/displaySign marker or still sits on the challenge URL — then
`wait_for_auth_approval` returns the original page snapshot normally: it
never raises on timeout, leaving the outcome to the caller. -/
theorem C5_timeout_returns_snapshot (jp : String → Option Config)
    (r : Response) (polls : Nat) (o : List (Option Response))
    (t : List Request)
    (hsafe : mfaCfgSafe (extract_config_from_script jp r.scripts) = true)
    (hpend : ∀ x ∈ o, notApprovedB r x = true) :
    waitPage (wait_for_auth_approval jp r polls (o, t)) = some r := by
  unfold wait_for_auth_approval
  have hsafe2 := hsafe
  unfold mfaCfgSafe at hsafe2
  simp only [Bool.and_eq_true] at hsafe2
  obtain ⟨hurl, hft⟩ := hsafe2
  dsimp only
  split
  · rfl
  · split
    · rfl
    · rename_i l heq
      rw [heq] at hurl
      simp only at hurl
      rw [if_pos hurl]
      rfl
    · rename_i v heq
      split
      · rfl
      · have hbuild : build_form_data_from_config
            (extract_config_from_script jp r.scripts) none none true =
            Except.ok (Classical.choose (token_fields_ok_of hft)) := by
          exact Classical.choose_spec (token_fields_ok_of hft)
        rw [hbuild]
        rw [waitPage_ok]
        congr 1
        exact poll_loop_pending r _ _ polls o t hpend

/-- Witness for C5: a concrete challenge page with an `urlEndAuth` config
and two pending polls; the poller returns the challenge page itself. -/
theorem C5_witness :
    mfaCfgSafe (extract_config_from_script jp5 chalPage.scripts) = true ∧
    waitPage (wait_for_auth_approval jp5 chalPage 2
      ([some pendPage, some pendPage], [])) = some chalPage :=
  ⟨by decide,
   C5_timeout_returns_snapshot jp5 chalPage 2 [some pendPage, some pendPage]
     [] (by decide) (by decide)⟩

/-- Claim C10: if the polls before the deadline are still pending and the
next poll raises a transport exception, the polling loop stops at once —
exactly `i + 1` polls were attempted, the remaining oracle is untouched —
and the original challenge page is returned without raising. -/
theorem C10_poll_exception_stops (r0 : Response) (purl : String)
    (fd : FormData) :
    ∀ (i fuel : Nat) (o : List (Option Response)) (t : List Request),
      i < fuel →
      (∀ x ∈ o.take i, notApprovedB r0 x = true) →
      o.get? i = some none →
      poll_loop r0 purl fd fuel (o, t) =
        (r0, (o.drop (i + 1),
              t ++ List.replicate (i + 1) ⟨Method.POST, purl, fd⟩))
  | 0, fuel, o, t, hif, _, hexc => by
    cases o with
    | nil => simp at hexc
    | cons x rest =>
      have hx : x = none := by simpa using hexc
      subst hx
      cases fuel with
      | zero => exact absurd hif (by omega)
      | succ f => simp [poll_loop, http]
  | k + 1, fuel, o, t, hif, hpend, hexc => by
    cases o with
    | nil => simp at hexc
    | cons x rest =>
      have hx : notApprovedB r0 x = true := by
        apply hpend
        simp [List.take_succ_cons]
      cases x with
      | none => simp [notApprovedB] at hx
      | some pr =>
        have hap : approvedB r0 pr = false := by
          simpa [notApprovedB] using hx
        cases fuel with
        | zero => exact absurd hif (by omega)
        | succ f =>
          show poll_loop r0 purl fd (f + 1) (some pr :: rest, t) = _
          simp only [poll_loop, http, hap, Bool.false_eq_true, if_false]
          have ih := C10_poll_exception_stops r0 purl fd k f rest
            (t ++ [⟨Method.POST, purl, fd⟩]) (by omega)
            (fun y hy => hpend y (by simp [List.take_succ_cons, hy]))
            (by simpa using hexc)
          exact ih.trans (by simp [List.replicate_succ, List.append_assoc])

/-- Witness for C10: one pending poll, then a transport exception at the
second poll; the loop returns the challenge page, leaves the third oracle
entry unconsumed, and records exactly two poll attempts. -/
theorem C10_witness :
    poll_loop pendPage "https://ms.example/poll" [] 3
      ([some pendPage, none, some pendPage], []) =
    (pendPage, (([some pendPage, none, some pendPage] :
        List (Option Response)).drop 2,
      ([] : List Request) ++
        List.replicate 2 ⟨Method.POST, "https://ms.example/poll", []⟩)) :=
  C10_poll_exception_stops pendPage "https://ms.example/poll" [] 1 3
    [some pendPage, none, some pendPage] [] (by omega) (by decide) (by decide)

/-- Claim C4 (amended): when the initial GET of a non-empty entry URL comes
back with HTTP status 200 on a final URL that matches the authenticated
target and excludes the login/auth/microsoft/saml markers, `login` returns
the authenticated session immediately with exactly one attempted request —
the initial GET — and zero POSTs. -/
theorem C4_amended_short_circuit (jp : String → Option Config)
    (username password u : String) (polls : Nat) (r : Response)
    (rest : List (Option Response))
    (hu : ¬u = "")
    (hst : r.status_code = 200)
    (hhost : substr "learning.london.edu" (strLower r.url) = true ∨
      substr "london.instructure.com" (strLower r.url) = true)
    (hlogin : substr "login" (strLower r.url) = false)
    (hauth : substr "auth" (strLower r.url) = false)
    (hms : substr "microsoft" (strLower r.url) = false)
    (hsaml : substr "saml" (strLower r.url) = false) :
    login jp username password (some u) polls (some r :: rest) =
      (some (), [⟨Method.GET, u, []⟩]) := by
  have ha : already_authenticated r.url = true := by
    unfold already_authenticated
    rcases hhost with h | h <;> simp [h, hlogin, hsaml]
  unfold login initial_fetch get_checked http
  simp [hu, hst, ha]

/-- Witness for C4 (amended): a concrete valid-cookie run whose probe lands
on the portal home page with status 200 short-circuits after one GET. -/
theorem C4_witness :
    login jpNone "u" "p" (some "https://portal.example/") 0
      [some ⟨200, "https://learning.london.edu/home", "", [], []⟩] =
    (some (), [⟨Method.GET, "https://portal.example/", []⟩]) :=
  C4_amended_short_circuit jpNone "u" "p" "https://portal.example/" 0
    ⟨200, "https://learning.london.edu/home", "", [], []⟩ []
    (by decide) rfl (Or.inl (by decide)) (by decide) (by decide) (by decide)
    (by decide)

/-- Counterexample to C4 as stated: the initial GET ends on a final URL
that matches the authenticated target and has none of the markers, yet
`login` returns `None` (not the session) because the response status is
500 — the claim omits the status-200 requirement of the code. -/
theorem C4_counterexample_non200_initial :
    login jpNone "u" "p" (some "https://portal.example/") 0 [some page4] =
      (none, [⟨Method.GET, "https://portal.example/", []⟩]) ∧
    substr "learning.london.edu" (strLower page4.url) = true ∧
    substr "login" (strLower page4.url) = false ∧
    substr "auth" (strLower page4.url) = false ∧
    substr "microsoft" (strLower page4.url) = false ∧
    substr "saml" (strLower page4.url) = false := by
  decide

/-- Claim C9 (amended): with `for_mfa=True` the built form carries only the
anti-forgery/session token fields — the flow token under its configured
name (`sFTName`, default `flowToken`), `ctx`, `canary`, `hpgrequestid`; it
never reads the credential arguments, and a field named `login`,
`loginfmt` or `passwd` can occur only when the config's `sFTName` equals
that very name (the field then holds the flow token, not a credential). -/
theorem C9_amended_mfa_form_fields (cfg : Config) (u p : Option String)
    (fd : FormData)
    (h : build_form_data_from_config cfg u p true = Except.ok fd) :
    (∀ kv ∈ fd, kv.1 = ftNameOf cfg ∨ kv.1 = "ctx" ∨ kv.1 = "canary" ∨
      kv.1 = "hpgrequestid") ∧
    build_form_data_from_config cfg u p true =
      build_form_data_from_config cfg none none true ∧
    (∀ k : String, (k = "login" ∨ k = "loginfmt" ∨ k = "passwd") →
      (getA fd k).isSome = true → ftNameOf cfg = k) := by
  have hb : token_fields cfg = Except.ok fd := h
  refine ⟨?_, rfl, ?_⟩
  · intro kv hkv
    exact mem_token_fields hb hkv
  · intro k hk hsome
    obtain ⟨kv, hmem, hk1⟩ := getA_isSome_mem hsome
    have hfour := mem_token_fields hb hmem
    rcases hk with rfl | rfl | rfl <;>
      rcases hfour with h1 | h1 | h1 | h1 <;>
      first
        | exact h1.symm.trans hk1
        | exact absurd (h1.symm.trans hk1) (by decide)

/-- Witness for C9 (amended): a config with a flow token and a ctx value;
the MFA form has exactly the token fields and ignores the credentials. -/
theorem C9_witness :
    (∀ kv ∈ ([("flowToken", JVal.s "tok"), ("ctx", JVal.s "c")] : FormData),
      kv.1 = ftNameOf [("sFT", JVal.s "tok"), ("sCtx", JVal.s "c")] ∨
      kv.1 = "ctx" ∨ kv.1 = "canary" ∨ kv.1 = "hpgrequestid") ∧
    build_form_data_from_config [("sFT", JVal.s "tok"), ("sCtx", JVal.s "c")]
      (some "user") (some "pw") true =
      build_form_data_from_config [("sFT", JVal.s "tok"),
        ("sCtx", JVal.s "c")] none none true ∧
    (∀ k : String, (k = "login" ∨ k = "loginfmt" ∨ k = "passwd") →
      (getA ([("flowToken", JVal.s "tok"), ("ctx", JVal.s "c")] : FormData)
        k).isSome = true →
      ftNameOf [("sFT", JVal.s "tok"), ("sCtx", JVal.s "c")] = k) :=
  C9_amended_mfa_form_fields [("sFT", JVal.s "tok"), ("sCtx", JVal.s "c")]
    (some "user") (some "pw")
    [("flowToken", JVal.s "tok"), ("ctx", JVal.s "c")] (by rfl)

/-- Counterexample to C9 as stated: a config whose `sFTName` is `passwd`
makes the MFA form contain a field named `passwd` (holding the flow
token), so the field set is not credential-field-free for every config. -/
theorem C9_counterexample_flow_token_named_passwd :
    build_form_data_from_config
      [("sFT", JVal.s "tok"), ("sFTName", JVal.s "passwd")] none none true =
      Except.ok [("passwd", JVal.s "tok")] := by
  rfl

/-- When every scripted outcome for the head of the oracle is a transport
failure or a non-200 response, the form-based SAML arm either leaves the
state untouched or fails. -/
theorem saml_form_fallback_bad_head (r : Response)
    (o : List (Option Response)) (t : List Request) (x : Option Response)
    (hx : x = none ∨ ∃ rr, x = some rr ∧ rr.status_code ≠ 200) :
    saml_form_fallback r (x :: o, t) = Except.ok (r, (x :: o, t)) ∨
      isErr (saml_form_fallback r (x :: o, t)) = true := by
  unfold saml_form_fallback
  cases hf : extract_saml_form r.forms with
  | none => exact Or.inl rfl
  | some fa =>
    right
    obtain ⟨fd, a⟩ := fa
    unfold post_checked http
    rcases hx with rfl | ⟨rr, rfl, hrr⟩
    · rfl
    · simp [hrr, isErr]

/-- Claim C3 (amended): a non-200 HTTP status is immediately fatal — with
no retry, the step attempting that request at most once — at the initial fetch,
the SAML hop, the username POST and the password POST; the MFA-initiation
and keep-signed-in POSTs do not check the status (see the counterexample
run, where a 500 at the MFA-initiation POST is ignored). -/
theorem C3_amended_status_checks :
    (∀ (u : String) (o : List (Option Response)) (t : List Request)
        (r : Response), r.status_code ≠ 200 →
        initial_fetch u (some r :: o, t) =
          Except.error (o, t ++ [⟨Method.GET, u, []⟩])) ∧
    (∀ (jp : String → Option Config) (r : Response)
        (o : List (Option Response)) (t : List Request)
        (x : Option Response),
        (x = none ∨ ∃ rr, x = some rr ∧ rr.status_code ≠ 200) →
        saml_hop jp r (x :: o, t) = Except.ok (r, (x :: o, t)) ∨
          isErr (saml_hop jp r (x :: o, t)) = true) ∧
    (∀ (jp : String → Option Config) (u : String) (r : Response)
        (o : List (Option Response)) (t : List Request)
        (x : Option Response),
        (x = none ∨ ∃ rr, x = some rr ∧ rr.status_code ≠ 200) →
        isErr (submit_username jp u r (x :: o, t)) = true) ∧
    (∀ (jp : String → Option Config) (u p : String) (r : Response)
        (o : List (Option Response)) (t : List Request)
        (x : Option Response),
        (x = none ∨ ∃ rr, x = some rr ∧ rr.status_code ≠ 200) →
        isErr (submit_password jp u p r (x :: o, t)) = true) := by
  refine ⟨?_, ?_, ?_, ?_⟩
  · intro u o t r h
    unfold initial_fetch get_checked http
    simp [h]
  · intro jp r o t x hx
    unfold saml_hop
    dsimp only
    split
    · split
      · right
        unfold get_checked http
        rcases hx with rfl | ⟨rr, rfl, hrr⟩
        · rfl
        · simp [hrr, isErr]
      · exact saml_form_fallback_bad_head r o t x hx
    · split
      · exact Or.inr rfl
      · exact saml_form_fallback_bad_head r o t x hx
    · exact saml_form_fallback_bad_head r o t x hx
  · intro jp u r o t x hx
    unfold submit_username
    cases hd : derive_username jp u r with
    | none => rfl
    | some fa =>
      obtain ⟨fd, a⟩ := fa
      unfold post_checked http
      rcases hx with rfl | ⟨rr, rfl, hrr⟩
      · rfl
      · simp [hrr, isErr]
  · intro jp u p r o t x hx
    unfold submit_password
    cases hd : derive_password jp u p r with
    | none => rfl
    | some fa =>
      obtain ⟨fd, a⟩ := fa
      unfold post_checked http
      rcases hx with rfl | ⟨rr, rfl, hrr⟩
      · rfl
      · simp [hrr, isErr]

/-- Witness for C3 (amended): a 500 response kills the initial fetch after
one GET; the SAML hop on a SAML-free page passes through; the username and
password submissions fail against a 500 response. -/
theorem C3_witness :
    initial_fetch "https://portal.example/" ([some page4], []) =
      Except.error ([], [⟨Method.GET, "https://portal.example/", []⟩]) ∧
    (saml_hop jpNone formPage ([some page4], []) =
        Except.ok (formPage, ([some page4], [])) ∨
      isErr (saml_hop jpNone formPage ([some page4], [])) = true) ∧
    isErr (submit_username jpNone "u" formPage ([some page4], [])) = true ∧
    isErr (submit_password jpNone "u" "p" formPage ([some page4], [])) =
      true :=
  ⟨C3_amended_status_checks.1 "https://portal.example/" [] [] page4
     (by decide),
   C3_amended_status_checks.2.1 jpNone formPage [] [] (some page4)
     (Or.inr ⟨page4, rfl, by decide⟩),
   C3_amended_status_checks.2.2.1 jpNone "u" formPage [] [] (some page4)
     (Or.inr ⟨page4, rfl, by decide⟩),
   C3_amended_status_checks.2.2.2 jpNone "u" "p" formPage [] [] (some page4)
     (Or.inr ⟨page4, rfl, by decide⟩)⟩

/-- Counterexample to C3 as stated: in the `oracle3` run the fourth HTTP
call is the MFA-initiation POST and its response has status 500 (non-2xx),
yet `login` does not fail there — it continues and even returns the
session, because that POST's status is never checked. -/
theorem C3_counterexample_unchecked_mfa_post :
    (login jp3 "u" "pw" (some "https://start.example/") 0 oracle3).1 =
      some () ∧
    (login jp3 "u" "pw" (some "https://start.example/") 0 oracle3).2.length
      = 4 ∧
    (login jp3 "u" "pw" (some "https://start.example/") 0 oracle3).2.get? 3
      = some ⟨Method.POST, "https://ms.example/auth",
          [("AuthMethodId", JVal.s "PhoneAppNotification")]⟩ ∧
    oracle3.get? 3 = some (some page3d) ∧
    page3d.status_code = 500 := by
  decide

/-- An unchecked POST from an empty starting trace records that request. -/
theorem kmsiTrace_post_unchecked (o : List (Option Response)) (url : String)
    (fd : FormData) :
    kmsiTrace (post_unchecked (o, []) url fd) = [⟨Method.POST, url, fd⟩] := by
  cases o with
  | nil => rfl
  | cons x rest => cases x <;> rfl

/-- Claim C8 (amended): every request the keep-signed-in step issues
carries `LoginOptions = '1'` — the choice not to stay signed in — and never
any other `LoginOptions` value; the step never submits a
stay-signed-in-equals-true choice.  (When no form or action URL can be
derived from the KMSI page, the step issues nothing at all and proceeds;
see the counterexample run.) -/
theorem C8_amended_kmsi_login_options (jp : String → Option Config)
    (r : Response) (o : List (Option Response)) :
    ∀ req ∈ kmsiTrace (kmsi_step jp r (o, [])),
      getA req.data "LoginOptions" = some (JVal.s "1") := by
  intro req hreq
  unfold kmsi_step at hreq
  dsimp only at hreq
  split at hreq
  · simp [kmsiTrace] at hreq
  · split at hreq
    · split at hreq
      · simp [kmsiTrace] at hreq
      · split at hreq
        · simp [kmsiTrace] at hreq
        · split at hreq
          · simp [kmsiTrace] at hreq
          · split at hreq
            · simp [kmsiTrace] at hreq
            · rw [kmsiTrace_post_unchecked] at hreq
              rcases List.mem_singleton.mp hreq with rfl
              exact getA_setA_self _ _ _
    · split at hreq
      · simp [kmsiTrace] at hreq
      · split at hreq
        · simp [kmsiTrace] at hreq
        · split at hreq
          · simp [kmsiTrace] at hreq
          · simp [kmsiTrace] at hreq
        · split at hreq
          · simp [kmsiTrace] at hreq
          · rw [kmsiTrace_post_unchecked] at hreq
            rcases List.mem_singleton.mp hreq with rfl
            exact getA_setA_self _ _ _

/-- Witness for C8 (amended): on a KMSI page with a config the step issues
exactly one POST and its form carries `LoginOptions = '1'`. -/
theorem C8_witness :
    kmsiReq ∈ kmsiTrace (kmsi_step jp8 kmsiCfgPage ([some page8a], [])) ∧
    getA kmsiReq.data "LoginOptions" = some (JVal.s "1") :=
  ⟨by decide,
   C8_amended_kmsi_login_options jp8 kmsiCfgPage [some page8a] kmsiReq
     (by decide)⟩

/-- Counterexample to C8 as stated: in the `oracle8` run the final response
carries the KmsiInterrupt marker, but the page offers neither a config nor
a form, so the sequencer proceeds (and returns the session) without ever
submitting the don't-stay-signed-in choice: no request of the whole run
carries `LoginOptions = '1'`. -/
theorem C8_counterexample_kmsi_skipped :
    (login jp8 "u" "pw" (some "https://start.example/") 0 oracle8).1 =
      some () ∧
    (login jp8 "u" "pw" (some "https://start.example/") 0 oracle8).2.length
      = 3 ∧
    (∀ req ∈ (login jp8 "u" "pw" (some "https://start.example/") 0
        oracle8).2,
      ¬getA req.data "LoginOptions" = some (JVal.s "1")) ∧
    oracle8.get? 2 = some (some kmsiBarePage) ∧
    substr "KmsiInterrupt" kmsiBarePage.text = true := by
  decide

end StudAI
